import Mathlib

/-!
Shallow embedding of the scoring and model-evaluation engine of the
test_generator repository: `app/core/grader.py` (class `Grader`) and
`app/services/model_answer_tester.py` (class `ModelAnswerTester`).

Python floats are modelled as exact rationals; Python `round(x, n)`
(banker's rounding, round half to even) is modelled by `pyRound`.
Data-carrying pydantic models from `app/models/schemas.py` (a file whose
construction-time validators are outside the embedded core) are modelled
as plain structures holding the fields the embedded code reads.
-/

/-- Floor of a rational, computed as Euclidean division of numerator by
denominator (the denominator is positive, so this is the floor). -/
def ratFloor (q : ℚ) : ℤ := q.num / (q.den : ℤ)

/-- Python `round` to an integer: round half to even (banker's rounding). -/
def pyRoundInt (q : ℚ) : ℤ :=
  let f : ℤ := ratFloor q
  let r : ℚ := q - (f : ℚ)
  if r < 1/2 then f
  else if 1/2 < r then f + 1
  else if f % 2 = 0 then f else f + 1

/-- Python `round(q, d)`: round to `d` decimal digits, half to even. -/
def pyRound (d : ℕ) (q : ℚ) : ℚ :=
  (pyRoundInt (q * (10 : ℚ) ^ d) : ℚ) / (10 : ℚ) ^ d

/-- Question type tag (`Question.type` in `app/models/schemas.py`). -/
inductive QType where
  | single_choice
  | multiple_choice
  | open_ended
deriving DecidableEq, Repr

/-- `Question` from `app/models/schemas.py`: the fields read by the grader
and the evaluator. -/
structure Question where
  id : String
  type : QType
  stem : String := ""
  options : List String := []
  correct : List ℤ := []
  reference_answer : String := ""
  rubric : List String := []
deriving DecidableEq, Repr

/-- `Exam` from `app/models/schemas.py`. -/
structure Exam where
  exam_id : String
  questions : List Question
deriving DecidableEq, Repr

/-- `StudentAnswer` from `app/models/schemas.py`. -/
structure StudentAnswer where
  question_id : String
  choice : List ℤ
deriving DecidableEq, Repr

/-- `GradeRequest` from `app/models/schemas.py`. -/
structure GradeRequest where
  exam_id : String
  answers : List StudentAnswer
deriving DecidableEq, Repr

/-- `QuestionResult` from `app/models/schemas.py`. -/
structure QuestionResult where
  question_id : String
  is_correct : Bool
  expected : List ℤ
  given : List ℤ
  partial_credit : ℚ
deriving DecidableEq, Repr

/-- `GradeSummary` from `app/models/schemas.py`. -/
structure GradeSummary where
  total : ℕ
  correct : ℕ
  score_percent : ℚ
deriving DecidableEq, Repr

/-- `GradeResponse` from `app/models/schemas.py`. -/
structure GradeResponse where
  exam_id : String
  summary : GradeSummary
  per_question : List QuestionResult
deriving DecidableEq, Repr

namespace Grader

/-- `Grader.calculate_partial_credit` (`app/core/grader.py`, lines 125-162):
set-based partial credit `(|E∩G| - |G\E|) / |E|` clamped to `[0, 1]`,
`0` when the expected set is empty. -/
def calculate_partial_credit (expected given : List ℤ) : ℚ :=
  let expected_set := expected.toFinset
  let given_set := given.toFinset
  let correct_selected := (expected_set ∩ given_set).card
  let wrong_selected := (given_set \ expected_set).card
  let total_expected := expected_set.card
  if total_expected = 0 then 0
  else max 0 (min 1 (((correct_selected : ℚ) - (wrong_selected : ℚ)) / (total_expected : ℚ)))

/-- `Grader._grade_question` (`app/core/grader.py`, lines 76-123).
Single choice compares the raw lists; every other type (the `else`
branch, reached by `multiple_choice`) compares the two lists after
sorting, and falls back to `calculate_partial_credit` when enabled.
The credit stored in the result is rounded to 4 decimal places. -/
def grade_question (question : Question) (given : List ℤ) (partial_credit : Bool) :
    QuestionResult :=
  let expected := question.correct
  if question.type = QType.single_choice then
    let is_correct := decide (given = expected)
    { question_id := question.id
      is_correct := is_correct
      expected := expected
      given := given
      partial_credit := pyRound 4 (if is_correct then 1 else 0) }
  else
    let expected_sorted := expected.insertionSort (· ≤ ·)
    let given_sorted := given.insertionSort (· ≤ ·)
    let is_correct := decide (expected_sorted = given_sorted)
    let credit : ℚ :=
      if is_correct then 1
      else if partial_credit then calculate_partial_credit expected given
      else 0
    { question_id := question.id
      is_correct := is_correct
      expected := expected
      given := given
      partial_credit := pyRound 4 credit }

/-- The `questions_map` dictionary lookup of `Grader.grade`
(`app/core/grader.py`, line 38): a Python dict comprehension keeps the
last question written under each id, hence the lookup on the reversed
list. -/
def findQuestion (questions : List Question) (qid : String) : Option Question :=
  questions.reverse.find? (fun q => q.id == qid)

/-- `Grader.grade` (`app/core/grader.py`, lines 14-74).  Raising
`ValueError` is modelled with `Except.error`; an error therefore carries
no `GradeResponse` at all.  The validation pass over all answers runs
before any answer is graded, exactly as in the source. -/
def grade (exam : Exam) (request : GradeRequest) (partial_credit : Bool) :
    Except String GradeResponse :=
  if request.answers = [] then
    .error "GradeRequest must contain at least one answer"
  else
    match request.answers.find?
        (fun a => (findQuestion exam.questions a.question_id).isNone) with
    | some a => .error ("Question ID " ++ a.question_id ++ " not found in exam")
    | none =>
      let results := request.answers.filterMap
        (fun a => (findQuestion exam.questions a.question_id).map
          (fun q => grade_question q a.choice partial_credit))
      let total_credit := (results.map (fun r => r.partial_credit)).sum
      let total_questions := results.length
      let correct_count := (results.filter (fun r => r.is_correct)).length
      let score_percent : ℚ :=
        if 0 < total_questions then total_credit / (total_questions : ℚ) * 100 else 0
      .ok { exam_id := request.exam_id
            summary := { total := total_questions
                         correct := correct_count
                         score_percent := pyRound 2 score_percent }
            per_question := results }

end Grader

/-- The payload of `answer_question` (a Python dict): indices for choice
questions, free text for open-ended ones, optional reasoning. -/
structure ModelAnswer where
  choice : List ℤ := []
  text_answer : String := ""
  reasoning : String := ""
deriving DecidableEq, Repr

/-- The payload of `grade_open_ended` (a Python dict). -/
structure GradingResult where
  score : ℚ
  feedback : String := ""
  rubric_scores : List ℤ := []
deriving DecidableEq, Repr

/-- A provider client (`OpenAIClient` / `YandexGPTClient`): the mutable
`model` field the evaluator overrides and restores, plus an untouched
representative field standing for the rest of the client state. -/
structure Client where
  model : String
  api_key : String := ""
deriving DecidableEq, Repr

/-- The provider capability used by `test_model_on_exam`: each call sees
the client state it is invoked on and may raise (`Except.error`). -/
structure ProviderOracle where
  answer_question :
    Client → String → QType → List String → String → Except String ModelAnswer
  grade_open_ended :
    Client → String → String → List String → String → String →
      Except String GradingResult

/-- One entry of `per_question_results` (a Python dict; absent keys are
`none`). -/
structure QRecord where
  question_id : String
  question_type : QType
  correct : Bool
  model_answer_text : Option String := none
  model_answer_choice : Option (List ℤ) := none
  grading_score : Option ℚ := none
  error : Option String := none
deriving DecidableEq, Repr

/-- `ModelTestResult` (`app/services/model_answer_tester.py`, lines 16-31);
the wall-clock `timestamp` and the `metadata` echo of the call arguments
are outside the embedded state. -/
structure ModelTestResult where
  model_name : String
  provider : String
  exam_id : String
  total_questions : ℕ
  correct_count : ℕ
  accuracy : ℚ
  per_question_results : List QRecord
deriving DecidableEq, Repr

namespace ModelAnswerTester

/-- `ModelAnswerTester._check_answer` (`app/services/model_answer_tester.py`,
lines 166-185): exact list match for single choice, set match for
multiple choice, `False` otherwise. -/
def check_answer (question : Question) (model_answer : ModelAnswer) : Bool :=
  if question.type = QType.single_choice then
    model_answer.choice == question.correct
  else if question.type = QType.multiple_choice then
    decide (model_answer.choice.toFinset = question.correct.toFinset)
  else
    false

/-- The body of one iteration of the question loop of `test_model_on_exam`
(`app/services/model_answer_tester.py`, lines 80-129), up to the spot
where the per-question `try` would catch: either the built result record
together with the `is_correct` flag, or the first raised error. -/
def answer_one_question (oracle : ProviderOracle) (client : Client)
    (question : Question) (language : String) : Except String (QRecord × Bool) :=
  if question.type = QType.open_ended then
    match oracle.answer_question client question.stem question.type [] language with
    | .error e => .error e
    | .ok model_answer =>
      match oracle.grade_open_ended client question.stem question.reference_answer
          question.rubric model_answer.text_answer language with
      | .error e => .error e
      | .ok grading_result =>
        let is_correct := decide ((7 : ℚ)/10 ≤ grading_result.score)
        .ok ({ question_id := question.id
               question_type := question.type
               correct := is_correct
               model_answer_text := some model_answer.text_answer
               grading_score := some grading_result.score }, is_correct)
  else
    match oracle.answer_question client question.stem question.type
        question.options language with
    | .error e => .error e
    | .ok model_answer =>
      let is_correct := check_answer question model_answer
      .ok ({ question_id := question.id
             question_type := question.type
             correct := is_correct
             model_answer_choice := some model_answer.choice }, is_correct)

/-- The record appended by the per-question `except` clause
(`app/services/model_answer_tester.py`, lines 131-138). -/
def error_record (question : Question) (e : String) : QRecord :=
  { question_id := question.id
    question_type := question.type
    correct := false
    error := some e }

/-- The record the loop appends for one question: the success record, or
the error record when the step raised. -/
def question_record (oracle : ProviderOracle) (client : Client)
    (language : String) (question : Question) : QRecord :=
  match answer_one_question oracle client question language with
  | .ok pr => pr.1
  | .error e => error_record question e

/-- One iteration of the question loop acting on the accumulated
`(per_question_results, correct_count)` pair: append the success record
and count it when correct, or append the error record. -/
def question_step (oracle : ProviderOracle) (client : Client) (language : String)
    (acc : List QRecord × ℕ) (question : Question) : List QRecord × ℕ :=
  match answer_one_question oracle client question language with
  | .ok pr => (acc.1 ++ [pr.1], acc.2 + (if pr.2 then 1 else 0))
  | .error e => (acc.1 ++ [error_record question e], acc.2)

/-- The question loop of `test_model_on_exam`
(`app/services/model_answer_tester.py`, lines 76-138): accumulates
`per_question_results` and `correct_count` over the questions in order;
a raising step contributes an error record and no count. -/
def question_loop (oracle : ProviderOracle) (client : Client)
    (language : String) (questions : List Question) : List QRecord × ℕ :=
  questions.foldl (question_step oracle client language) ([], 0)

/-- The `try` body of `test_model_on_exam`
(`app/services/model_answer_tester.py`, lines 75-160), run on the client
whose model is already overridden: loop, accuracy, result construction,
optional save (whose failure propagates). -/
def run_body (oracle : ProviderOracle) (client : Client) (exam : Exam)
    (model_name provider : String)
    (save : Option (ModelTestResult → Except String String)) (language : String) :
    Except String ModelTestResult :=
  let pair := question_loop oracle client language exam.questions
  let correct_count := pair.2
  let accuracy : ℚ :=
    if exam.questions.isEmpty then 0
    else (correct_count : ℚ) / (exam.questions.length : ℚ)
  let result : ModelTestResult :=
    { model_name := model_name
      provider := provider
      exam_id := exam.exam_id
      total_questions := exam.questions.length
      correct_count := correct_count
      accuracy := pyRound 4 accuracy
      per_question_results := pair.1 }
  match save with
  | none => .ok result
  | some s =>
    match s result with
    | .ok _ => .ok result
    | .error e => .error e

/-- `ModelAnswerTester.test_model_on_exam`
(`app/services/model_answer_tester.py`, lines 42-164).  The client
resolved for each provider is passed in (`OpenAIClient()` /
`YandexGPTClient()` hand out the shared capability instance); the second
component is that client's state after the call (`none` when no client
was resolved).  The `finally` clause restores `client.model` on both the
returning and the raising path, which the state-passing makes explicit. -/
def test_model_on_exam (oracle : ProviderOracle) (openai_client yandex_client : Client)
    (exam : Exam) (model_name provider : String)
    (save : Option (ModelTestResult → Except String String)) (language : String) :
    Except String ModelTestResult × Option Client :=
  if provider = "openai" then
    let client := openai_client
    let original_model := client.model
    let client2 := { client with model := model_name }
    (run_body oracle client2 exam model_name provider save language,
     some { client2 with model := original_model })
  else if provider = "yandex" then
    let client := yandex_client
    let original_model := client.model
    let client2 := { client with model := model_name }
    (run_body oracle client2 exam model_name provider save language,
     some { client2 with model := original_model })
  else
    (.error ("Unsupported provider: " ++ provider), none)

/-- One entry of the `models` list of a comparison report. -/
structure ModelInfo where
  model_name : String
  provider : String
  accuracy : ℚ
  correct_count : ℕ
  ai_pass_rate : ℚ
deriving DecidableEq, Repr

/-- One value of the `per_question_breakdown` mapping. -/
structure QuestionBreakdown where
  question_type : QType
  models_correct : List String
  models_incorrect : List String
deriving DecidableEq, Repr

/-- The comparison dict built by `compare_models`. -/
structure ComparisonReport where
  exam_id : String
  total_questions : ℕ
  models : List ModelInfo
  best_model : Option String
  best_accuracy : ℚ
  per_question_breakdown : List (String × QuestionBreakdown)
deriving DecidableEq, Repr

/-- Appending a model name to the correct or incorrect list of a
breakdown entry (`app/services/model_answer_tester.py`, lines 332-335). -/
def breakdown_add (model_name : String) (correct : Bool)
    (b : QuestionBreakdown) : QuestionBreakdown :=
  if correct then { b with models_correct := b.models_correct ++ [model_name] }
  else { b with models_incorrect := b.models_incorrect ++ [model_name] }

/-- One update of the `question_breakdown` dict
(`app/services/model_answer_tester.py`, lines 323-335): create the entry
in insertion order if absent, then append the model name. -/
def breakdown_update (bd : List (String × QuestionBreakdown))
    (model_name : String) (rec : QRecord) : List (String × QuestionBreakdown) :=
  if bd.any (fun p => p.1 == rec.question_id) then
    bd.map (fun p =>
      if p.1 == rec.question_id then (p.1, breakdown_add model_name rec.correct p.2)
      else p)
  else
    bd ++ [(rec.question_id,
            breakdown_add model_name rec.correct
              { question_type := rec.question_type
                models_correct := []
                models_incorrect := [] })]

/-- The best-model fold of `compare_models`
(`app/services/model_answer_tester.py`, lines 306-318): running pair
`(best_model, best_accuracy)` starting at `(None, 0.0)`, updated only on
a strict accuracy increase. -/
def best_fold (results : List ModelTestResult) (init : Option String × ℚ) :
    Option String × ℚ :=
  results.foldl
    (fun b r => if b.2 < r.accuracy then (some r.model_name, r.accuracy) else b)
    init

/-- `ModelAnswerTester.compare_models`
(`app/services/model_answer_tester.py`, lines 279-351); the empty-input
early return of an error dict is modelled with `Except.error`, and the
optional persistence (which only adds a file path echo) is outside the
embedded state. -/
def compare_models (results : List ModelTestResult) :
    Except String ComparisonReport :=
  match results with
  | [] => .error "No results to compare"
  | r0 :: _ =>
    let models := results.map (fun r =>
      ({ model_name := r.model_name
         provider := r.provider
         accuracy := r.accuracy
         correct_count := r.correct_count
         ai_pass_rate := r.accuracy } : ModelInfo))
    let best := best_fold results (none, 0)
    let breakdown := results.foldl
      (fun bd r => r.per_question_results.foldl
        (fun bd rec => breakdown_update bd r.model_name rec) bd)
      []
    .ok { exam_id := r0.exam_id
          total_questions := r0.total_questions
          models := models
          best_model := best.1
          best_accuracy := best.2
          per_question_breakdown := breakdown }

end ModelAnswerTester

/-! ### Helper lemmas -/

/-- `pyRound` leaves a value with at most `d` decimal digits unchanged. -/
theorem pyRound_eq_self (d : ℕ) (q : ℚ) (m : ℤ) (h : q * (10:ℚ)^d = (m:ℚ)) :
    pyRound d q = q := by
  have hne : ((10:ℚ)^d) ≠ 0 := by positivity
  unfold pyRound pyRoundInt ratFloor
  rw [h]
  simp only [Rat.num_intCast, Rat.den_intCast, Nat.cast_one, Int.ediv_one]
  have hz : (m:ℚ) - (m:ℚ) = 0 := by ring
  rw [hz]
  norm_num
  field_simp at h ⊢
  linarith [h]

theorem pyRound_zero (d : ℕ) : pyRound d 0 = 0 :=
  pyRound_eq_self d 0 0 (by norm_num)

theorem pyRound_one (d : ℕ) : pyRound d 1 = 1 :=
  pyRound_eq_self d 1 ((10:ℤ)^d) (by push_cast; ring)

/-- Clamping to `[0, 1]` stays in `[0, 1]`. -/
theorem clamp_mem_unit (x : ℚ) : 0 ≤ max 0 (min 1 x) ∧ max 0 (min 1 x) ≤ 1 :=
  ⟨le_max_left 0 _, max_le (by norm_num) (min_le_left 1 x)⟩

/-- The clamped credit hits `1` exactly when the given set equals the
expected set (for a non-empty expected set). -/
theorem clamp_credit_eq_one_iff (E G : Finset ℤ) (hE : E.card ≠ 0) :
    max 0 (min 1 ((((E ∩ G).card : ℚ) - ((G \ E).card : ℚ)) / (E.card : ℚ))) = 1 ↔
      G = E := by
  have hte : (0:ℚ) < (E.card : ℚ) := by
    have := Nat.pos_of_ne_zero hE
    exact_mod_cast this
  have hcs_le : (E ∩ G).card ≤ E.card := Finset.card_le_card Finset.inter_subset_left
  constructor
  · intro h1
    have hmin : min 1 ((((E ∩ G).card : ℚ) - ((G \ E).card : ℚ)) / (E.card : ℚ)) = 1 := by
      rcases le_total (min 1 ((((E ∩ G).card : ℚ) - ((G \ E).card : ℚ)) / (E.card : ℚ))) 0 with h | h
      · rw [max_eq_left h] at h1
        norm_num at h1
      · rwa [max_eq_right h] at h1
    have hx : (1:ℚ) ≤ (((E ∩ G).card : ℚ) - ((G \ E).card : ℚ)) / (E.card : ℚ) :=
      min_eq_left_iff.mp hmin
    have hx2 : (E.card : ℚ) ≤ ((E ∩ G).card : ℚ) - ((G \ E).card : ℚ) :=
      (one_le_div hte).mp hx
    have hcsq : ((E ∩ G).card : ℚ) ≤ (E.card : ℚ) := by exact_mod_cast hcs_le
    have hwsq : (0:ℚ) ≤ ((G \ E).card : ℚ) := by positivity
    have hws0 : ((G \ E).card : ℚ) = 0 := by linarith
    have hcste : ((E ∩ G).card : ℚ) = (E.card : ℚ) := by linarith
    have hws0n : (G \ E).card = 0 := by exact_mod_cast hws0
    have hcsten : (E ∩ G).card = E.card := by exact_mod_cast hcste
    have hGsubE : G ⊆ E :=
      Finset.sdiff_eq_empty_iff_subset.mp (Finset.card_eq_zero.mp hws0n)
    have hinter : E ∩ G = E :=
      Finset.eq_of_subset_of_card_le Finset.inter_subset_left (le_of_eq hcsten.symm)
    have hEsubG : E ⊆ G := Finset.inter_eq_left.mp hinter
    exact Finset.Subset.antisymm hGsubE hEsubG
  · intro hGE
    subst hGE
    rw [Finset.inter_self, Finset.sdiff_self, Finset.card_empty]
    rw [show ((G.card : ℚ) - (0:ℕ)) / (G.card : ℚ) = 1 by
      push_cast
      field_simp]
    norm_num

/-- The clamped credit is `0` whenever nothing expected was selected. -/
theorem clamp_credit_zero_of_empty_inter (E G : Finset ℤ) (hI : E ∩ G = ∅) :
    max 0 (min 1 ((((E ∩ G).card : ℚ) - ((G \ E).card : ℚ)) / (E.card : ℚ))) = 0 := by
  rw [hI, Finset.card_empty]
  have hnum : ((0:ℕ) : ℚ) - ((G \ E).card : ℚ) ≤ 0 := by
    have : (0:ℚ) ≤ ((G \ E).card : ℚ) := by positivity
    push_cast
    linarith
  have hx : (((0:ℕ) : ℚ) - ((G \ E).card : ℚ)) / (E.card : ℚ) ≤ 0 :=
    div_nonpos_iff.mpr (Or.inr ⟨hnum, by positivity⟩)
  have hmin : min 1 ((((0:ℕ) : ℚ) - ((G \ E).card : ℚ)) / (E.card : ℚ)) ≤ 0 :=
    le_trans (min_le_right _ _) hx
  exact max_eq_left hmin

/-- Two lists have equal sorts exactly when they are equal as multisets. -/
theorem insertionSort_eq_iff (l₁ l₂ : List ℤ) :
    l₁.insertionSort (· ≤ ·) = l₂.insertionSort (· ≤ ·) ↔
      (l₁ : Multiset ℤ) = (l₂ : Multiset ℤ) := by
  constructor
  · intro h
    rw [Multiset.coe_eq_coe]
    have p1 : l₁.Perm (l₁.insertionSort (· ≤ ·)) :=
      (List.perm_insertionSort _ l₁).symm
    have p2 : (l₂.insertionSort (· ≤ ·)).Perm l₂ := List.perm_insertionSort _ l₂
    rw [h] at p1
    exact p1.trans p2
  · intro h
    have p : l₁.Perm l₂ := Multiset.coe_eq_coe.mp h
    exact List.eq_of_perm_of_sorted
      ((List.perm_insertionSort _ l₁).trans (p.trans (List.perm_insertionSort _ l₂).symm))
      (List.sorted_insertionSort _ l₁) (List.sorted_insertionSort _ l₂)

/-- Unfolding of `grade_question` on a non-single-choice question. -/
theorem grade_question_mc (q : Question) (given : List ℤ) (pc : Bool)
    (hq : q.type ≠ QType.single_choice) :
    Grader.grade_question q given pc =
      { question_id := q.id
        is_correct :=
          decide (q.correct.insertionSort (· ≤ ·) = given.insertionSort (· ≤ ·))
        expected := q.correct
        given := given
        partial_credit := pyRound 4
          (if q.correct.insertionSort (· ≤ ·) = given.insertionSort (· ≤ ·) then 1
           else if pc then Grader.calculate_partial_credit q.correct given
           else 0) } := by
  unfold Grader.grade_question
  rw [if_neg hq]
  simp only [decide_eq_true_eq]

/-! ### Claims about `calculate_partial_credit` -/

/-- Claim C1: for all index lists, `calculate_partial_credit` computes
`clamp((card(E ∩ G) - card(G \setminus E)) / card E, 0, 1)` when the expected set
is non-empty and `0` when it is empty; on `expected = [0,2,4]`,
`given = [0,1,2]` the credit is `(2-1)/3 = 1/3`. -/
theorem partial_credit_formula (expected given : List ℤ) :
    (expected.toFinset.card ≠ 0 →
      Grader.calculate_partial_credit expected given =
        max 0 (min 1
          (((expected.toFinset ∩ given.toFinset).card -
              ((given.toFinset \ expected.toFinset).card : ℚ)) /
            (expected.toFinset.card : ℚ))))
    ∧ (expected.toFinset.card = 0 →
        Grader.calculate_partial_credit expected given = 0)
    ∧ Grader.calculate_partial_credit [0,2,4] [0,1,2] = 1/3 := by
  refine ⟨?_, ?_, ?_⟩
  · intro h
    unfold Grader.calculate_partial_credit
    simp [h]
  · intro h
    unfold Grader.calculate_partial_credit
    simp [h]
  · have a1 : (([0,2,4] : List ℤ).toFinset ∩ ([0,1,2] : List ℤ).toFinset).card = 2 := by
      decide
    have a2 : (([0,1,2] : List ℤ).toFinset \ ([0,2,4] : List ℤ).toFinset).card = 1 := by
      decide
    have a3 : (([0,2,4] : List ℤ).toFinset).card = 3 := by decide
    unfold Grader.calculate_partial_credit
    simp only [a1, a2, a3]
    norm_num [max_def, min_def]

/-- Witness for C1 at `expected = [0,2,4]`, `given = [0,1,2]`. -/
theorem partial_credit_formula_witness :
    Grader.calculate_partial_credit [0,2,4] [0,1,2] =
      max 0 (min 1
        (((([0,2,4] : List ℤ).toFinset ∩ ([0,1,2] : List ℤ).toFinset).card -
            ((([0,1,2] : List ℤ).toFinset \ ([0,2,4] : List ℤ).toFinset).card : ℚ)) /
          ((([0,2,4] : List ℤ).toFinset.card : ℚ)))) :=
  (partial_credit_formula [0,2,4] [0,1,2]).1 (by decide)

/-- Claim C2, counterexample: on `expected = []`, `given = []` the two
sets are equal, yet the credit is `0`, not `1` — the claimed
"equals 1.0 iff `set(given) == set(expected)`" fails. -/
theorem partial_credit_one_iff_counterexample :
    Grader.calculate_partial_credit [] [] = 0
    ∧ ([] : List ℤ).toFinset = ([] : List ℤ).toFinset
    ∧ Grader.calculate_partial_credit [] [] ≠ 1 := by
  have h0 : Grader.calculate_partial_credit [] [] = 0 := by
    unfold Grader.calculate_partial_credit
    simp
  refine ⟨h0, rfl, ?_⟩
  rw [h0]
  norm_num

/-- Claim C2, amended: the credit always lies in `[0, 1]`; it equals `1`
iff the two sets are equal and the expected set is non-empty; it equals
`0` whenever the two sets are disjoint. -/
theorem partial_credit_range_amended (expected given : List ℤ) :
    (0 ≤ Grader.calculate_partial_credit expected given
      ∧ Grader.calculate_partial_credit expected given ≤ 1)
    ∧ (Grader.calculate_partial_credit expected given = 1 ↔
        (given.toFinset = expected.toFinset ∧ expected.toFinset ≠ ∅))
    ∧ (expected.toFinset ∩ given.toFinset = ∅ →
        Grader.calculate_partial_credit expected given = 0) := by
  by_cases hte : expected.toFinset.card = 0
  · have hE : expected.toFinset = ∅ := Finset.card_eq_zero.mp hte
    have h0 : Grader.calculate_partial_credit expected given = 0 := by
      unfold Grader.calculate_partial_credit
      simp [hte]
    refine ⟨⟨by rw [h0], by rw [h0]; norm_num⟩, ?_, fun _ => h0⟩
    rw [h0]
    constructor
    · intro h
      norm_num at h
    · rintro ⟨-, hne⟩
      exact absurd hE hne
  · have hunf : Grader.calculate_partial_credit expected given =
        max 0 (min 1
          ((((expected.toFinset ∩ given.toFinset).card : ℚ) -
              ((given.toFinset \ expected.toFinset).card : ℚ)) /
            (expected.toFinset.card : ℚ))) := by
      unfold Grader.calculate_partial_credit
      simp [hte]
    refine ⟨?_, ?_, ?_⟩
    · rw [hunf]
      exact clamp_mem_unit _
    · rw [hunf]
      rw [clamp_credit_eq_one_iff _ _ hte]
      constructor
      · intro h
        refine ⟨h, fun hE => hte (by rw [hE, Finset.card_empty])⟩
      · exact fun h => h.1
    · intro hI
      rw [hunf]
      exact clamp_credit_zero_of_empty_inter _ _ hI

/-- Witness for the amended C2: equal non-empty sets give credit `1`,
disjoint sets give credit `0`. -/
theorem partial_credit_range_amended_witness :
    Grader.calculate_partial_credit [0, 1] [1, 0] = 1
    ∧ Grader.calculate_partial_credit [0] [1] = 0 :=
  ⟨(partial_credit_range_amended [0, 1] [1, 0]).2.1.mpr ⟨by decide, by decide⟩,
   (partial_credit_range_amended [0] [1]).2.2 (by decide)⟩

/-! ### Claims about `grade_question` (multiple choice) -/

/-- A multiple-choice question with expected indices `[1, 3]`. -/
def dupQuestion : Question :=
  { id := "q3"
    type := QType.multiple_choice
    stem := "s"
    options := ["a", "b", "c", "d"]
    correct := [1, 3] }

/-- Claim C3, counterexample: for the multiple-choice question with
`correct = [1, 3]` and the answer `[1, 1, 3]`, the given and expected
indices are equal as sets, yet the code (which compares sorted lists,
not sets) marks the answer incorrect, and with `partial_credit = false`
awards credit `0` instead of the claimed `1.0`. -/
theorem grade_question_set_match_counterexample :
    ([1, 1, 3] : List ℤ).toFinset = dupQuestion.correct.toFinset
    ∧ (Grader.grade_question dupQuestion [1, 1, 3] false).is_correct = false
    ∧ (Grader.grade_question dupQuestion [1, 1, 3] false).partial_credit = 0 := by
  refine ⟨by decide, by decide, ?_⟩
  have h : (Grader.grade_question dupQuestion [1, 1, 3] false).partial_credit =
      pyRound 4 0 := rfl
  rw [h, pyRound_zero]

/-- Claim C3, amended: for every multiple-choice question, `grade` marks
the answer correct iff given and expected indices coincide as multisets
(sorted lists); on a multiset match the recorded credit is `1.0`; on a
mismatch the recorded credit is `0` (and `is_correct` is false) without
partial credit, and the partial-credit formula value rounded to 4
decimal places with it. -/
theorem grade_question_multiset_match (q : Question) (given : List ℤ) (pc : Bool)
    (hq : q.type = QType.multiple_choice) :
    ((Grader.grade_question q given pc).is_correct = true ↔
      (given : Multiset ℤ) = (q.correct : Multiset ℤ))
    ∧ ((given : Multiset ℤ) = (q.correct : Multiset ℤ) →
        (Grader.grade_question q given pc).partial_credit = 1)
    ∧ ((given : Multiset ℤ) ≠ (q.correct : Multiset ℤ) → pc = false →
        (Grader.grade_question q given pc).partial_credit = 0
        ∧ (Grader.grade_question q given pc).is_correct = false)
    ∧ ((given : Multiset ℤ) ≠ (q.correct : Multiset ℤ) → pc = true →
        (Grader.grade_question q given pc).partial_credit =
          pyRound 4 (Grader.calculate_partial_credit q.correct given)) := by
  have hne : q.type ≠ QType.single_choice := by
    rw [hq]
    intro h
    cases h
  rw [grade_question_mc q given pc hne]
  have hiff : (q.correct.insertionSort (· ≤ ·) = given.insertionSort (· ≤ ·)) ↔
      (given : Multiset ℤ) = (q.correct : Multiset ℤ) := by
    rw [insertionSort_eq_iff]
    exact eq_comm
  refine ⟨?_, ?_, ?_, ?_⟩
  · simpa [decide_eq_true_eq] using hiff
  · intro h
    have hs : q.correct.insertionSort (· ≤ ·) = given.insertionSort (· ≤ ·) :=
      hiff.mpr h
    simp [hs, pyRound_one]
  · intro h hpc
    have hs : ¬(q.correct.insertionSort (· ≤ ·) = given.insertionSort (· ≤ ·)) :=
      fun hx => h (hiff.mp hx)
    subst hpc
    constructor
    · simp only [if_neg hs]
      simp [pyRound_zero]
    · simp [hs]
  · intro h hpc
    have hs : ¬(q.correct.insertionSort (· ≤ ·) = given.insertionSort (· ≤ ·)) :=
      fun hx => h (hiff.mp hx)
    subst hpc
    simp only [if_neg hs]
    simp

/-- Witness for the amended C3: a permuted answer is marked correct, and
a strict subset answer gets the rounded formula credit. -/
theorem grade_question_multiset_match_witness :
    (Grader.grade_question dupQuestion [3, 1] true).is_correct = true
    ∧ (Grader.grade_question dupQuestion [1] true).partial_credit =
        pyRound 4 (Grader.calculate_partial_credit dupQuestion.correct [1]) :=
  ⟨(grade_question_multiset_match dupQuestion [3, 1] true rfl).1.mpr (by decide),
   (grade_question_multiset_match dupQuestion [1] true rfl).2.2.2 (by decide) rfl⟩

/-! ### Claims about `grade` -/

/-- `filterMap` with a totally-defined function keeps the length. -/
theorem length_filterMap_of_isSome {α β : Type} (l : List α) (f : α → Option β)
    (h : ∀ a ∈ l, (f a).isSome) : (l.filterMap f).length = l.length := by
  induction l with
  | nil => simp
  | cons a t ih =>
    rw [List.filterMap_cons]
    cases hf : f a with
    | none =>
      have := h a (by simp)
      rw [hf] at this
      exact absurd this (by simp)
    | some b =>
      simp only [List.length_cons]
      rw [ih (fun x hx => h x (by simp [hx]))]

/-- Claim C4: when some answer references a question id absent from the
exam, `grade` raises (returns `Except.error`), so no `GradeResponse` —
partial or otherwise — is produced; the validation pass runs before any
grading. -/
theorem grade_unknown_question_aborts (exam : Exam) (request : GradeRequest)
    (pc : Bool) (a : StudentAnswer) (ha : a ∈ request.answers)
    (hmiss : ∀ q ∈ exam.questions, q.id ≠ a.question_id) :
    ∃ msg, Grader.grade exam request pc = Except.error msg := by
  have hnil : request.answers ≠ [] := List.ne_nil_of_mem ha
  have hfq : Grader.findQuestion exam.questions a.question_id = none := by
    unfold Grader.findQuestion
    rw [List.find?_eq_none]
    intro q hqmem
    have hq : q ∈ exam.questions := List.mem_reverse.mp hqmem
    simp only [beq_iff_eq]
    simpa using hmiss q hq
  have hsome : (request.answers.find?
      (fun x => (Grader.findQuestion exam.questions x.question_id).isNone)).isSome := by
    rw [List.find?_isSome]
    exact ⟨a, ha, by rw [hfq]; rfl⟩
  cases hfind : request.answers.find?
      (fun x => (Grader.findQuestion exam.questions x.question_id).isNone) with
  | none =>
    rw [hfind] at hsome
    exact absurd hsome (by simp)
  | some a0 =>
    refine ⟨"Question ID " ++ a0.question_id ++ " not found in exam", ?_⟩
    unfold Grader.grade
    rw [if_neg hnil, hfind]

/-- A one-question exam used by concrete instantiations. -/
def examW : Exam :=
  { exam_id := "e1"
    questions := [ { id := "q1", type := QType.single_choice,
                     options := ["a", "b"], correct := [1] } ] }

/-- A request answering a question id that is not in `examW`. -/
def badRequest : GradeRequest :=
  { exam_id := "e1", answers := [ { question_id := "zz", choice := [0] } ] }

/-- Witness for C4: grading `badRequest` against `examW` errors out. -/
theorem grade_unknown_question_aborts_witness :
    ∃ msg, Grader.grade examW badRequest true = Except.error msg :=
  grade_unknown_question_aborts examW badRequest true
    { question_id := "zz", choice := [0] } (by decide) (by decide)

/-- Claim C5: a successful `grade` reports `total` = number of answers,
`correct` = number of per-question results marked correct, and
`score_percent` = the mean of the recorded per-answer credits times 100,
rounded (half-to-even) to 2 decimal places. -/
theorem grade_summary_spec (exam : Exam) (request : GradeRequest) (pc : Bool)
    (resp : GradeResponse) (h : Grader.grade exam request pc = Except.ok resp) :
    resp.summary.total = request.answers.length
    ∧ resp.summary.correct = (resp.per_question.filter (fun r => r.is_correct)).length
    ∧ resp.summary.score_percent =
        pyRound 2 ((resp.per_question.map (fun r => r.partial_credit)).sum /
          (request.answers.length : ℚ) * 100) := by
  by_cases hnil : request.answers = []
  · unfold Grader.grade at h
    rw [if_pos hnil] at h
    exact Except.noConfusion h
  · unfold Grader.grade at h
    rw [if_neg hnil] at h
    cases hfind : request.answers.find?
        (fun x => (Grader.findQuestion exam.questions x.question_id).isNone) with
    | some a0 =>
      rw [hfind] at h
      exact Except.noConfusion h
    | none =>
      rw [hfind] at h
      have hall : ∀ x ∈ request.answers,
          ((Grader.findQuestion exam.questions x.question_id).map
            (fun q => Grader.grade_question q x.choice pc)).isSome := by
        intro x hx
        have hnone := List.find?_eq_none.mp hfind x hx
        cases hh : Grader.findQuestion exam.questions x.question_id with
        | none =>
          rw [hh] at hnone
          exact absurd rfl hnone
        | some q => rfl
      have hlen : (request.answers.filterMap
          (fun x => (Grader.findQuestion exam.questions x.question_id).map
            (fun q => Grader.grade_question q x.choice pc))).length =
          request.answers.length :=
        length_filterMap_of_isSome _ _ hall
      have hpos : 0 < (request.answers.filterMap
          (fun x => (Grader.findQuestion exam.questions x.question_id).map
            (fun q => Grader.grade_question q x.choice pc))).length := by
        rw [hlen]
        exact List.length_pos.mpr hnil
      injection h with h2
      subst h2
      refine ⟨hlen, rfl, ?_⟩
      rw [if_pos hpos, hlen]

/-- A request correctly answering the single question of `examW`. -/
def okRequest : GradeRequest :=
  { exam_id := "e1", answers := [ { question_id := "q1", choice := [1] } ] }

/-- The response `grade` produces for `examW` and `okRequest`. -/
def gradeRespW : GradeResponse :=
  { exam_id := "e1"
    summary := { total := 1, correct := 1, score_percent := 100 }
    per_question := [ { question_id := "q1", is_correct := true,
                        expected := [1], given := [1], partial_credit := 1 } ] }

/-- Witness for C5 on the concrete run of `examW` with `okRequest`. -/
theorem grade_summary_spec_witness :
    gradeRespW.summary.total = okRequest.answers.length
    ∧ gradeRespW.summary.correct =
        (gradeRespW.per_question.filter (fun r => r.is_correct)).length
    ∧ gradeRespW.summary.score_percent =
        pyRound 2 ((gradeRespW.per_question.map (fun r => r.partial_credit)).sum /
          (okRequest.answers.length : ℚ) * 100) :=
  grade_summary_spec examW okRequest true gradeRespW (by
    have hf : okRequest.answers.find?
        (fun a => (Grader.findQuestion examW.questions a.question_id).isNone) = none := by
      decide
    unfold Grader.grade
    rw [if_neg (by decide : ¬(okRequest.answers = []))]
    rw [hf]
    have hres : okRequest.answers.filterMap
        (fun a => (Grader.findQuestion examW.questions a.question_id).map
          (fun q => Grader.grade_question q a.choice true)) =
        [ { question_id := "q1", is_correct := true, expected := [1], given := [1],
            partial_credit := pyRound 4 1 } ] := rfl
    simp only [hres]
    rw [pyRound_one]
    simp [gradeRespW]
    constructor
    · rfl
    · exact pyRound_eq_self 2 100 10000 (by norm_num))

/-! ### Evaluator loop lemmas -/

namespace ModelAnswerTester

/-- A successful per-question step records its own correctness flag and
the question's id and type. -/
theorem answer_one_question_ok_fields (oracle : ProviderOracle) (client : Client)
    (q : Question) (lang : String) (pr : QRecord × Bool)
    (h : answer_one_question oracle client q lang = Except.ok pr) :
    pr.1.correct = pr.2 ∧ pr.1.question_id = q.id ∧ pr.1.question_type = q.type := by
  unfold answer_one_question at h
  split at h
  · split at h
    · exact Except.noConfusion h
    · split at h
      · exact Except.noConfusion h
      · injection h with h2
        subst h2
        exact ⟨rfl, rfl, rfl⟩
  · split at h
    · exact Except.noConfusion h
    · injection h with h2
      subst h2
      exact ⟨rfl, rfl, rfl⟩

/-- Every loop record carries the id and type of its question. -/
theorem question_record_fields (oracle : ProviderOracle) (client : Client)
    (lang : String) (q : Question) :
    (question_record oracle client lang q).question_id = q.id
    ∧ (question_record oracle client lang q).question_type = q.type := by
  unfold question_record
  cases h : answer_one_question oracle client q lang with
  | error e => exact ⟨rfl, rfl⟩
  | ok pr =>
    have := answer_one_question_ok_fields oracle client q lang pr h
    exact ⟨this.2.1, this.2.2⟩

/-- A raising step contributes exactly the error record. -/
theorem question_record_of_error (oracle : ProviderOracle) (client : Client)
    (lang : String) (q : Question) (e : String)
    (h : answer_one_question oracle client q lang = Except.error e) :
    question_record oracle client lang q = error_record q e := by
  unfold question_record
  rw [h]

/-- The loop fold, from any accumulator: appends one record per question
and adds the number of correct records. -/
theorem question_foldl_general (oracle : ProviderOracle) (client : Client)
    (lang : String) (qs : List Question) :
    ∀ acc : List QRecord × ℕ,
      qs.foldl (question_step oracle client lang) acc =
        (acc.1 ++ qs.map (question_record oracle client lang),
         acc.2 + (qs.map (question_record oracle client lang)).countP
           (fun r => r.correct)) := by
  induction qs with
  | nil => intro acc; simp
  | cons q t ih =>
    intro acc
    rw [List.foldl_cons, ih]
    cases h : answer_one_question oracle client q lang with
    | ok pr =>
      have hc : pr.1.correct = pr.2 :=
        (answer_one_question_ok_fields oracle client q lang pr h).1
      have hq : question_record oracle client lang q = pr.1 := by
        unfold question_record
        rw [h]
      simp only [question_step, h, List.map_cons, List.countP_cons, hq]
      refine Prod.ext ?_ ?_
      · simp
      · simp only [hc]
        cases pr.2
        · simp
        · simp
          omega
    | error e =>
      have hq : question_record oracle client lang q = error_record q e :=
        question_record_of_error oracle client lang q e h
      simp only [question_step, h, List.map_cons, List.countP_cons, hq]
      refine Prod.ext ?_ ?_
      · simp
      · simp [error_record]

/-- The question loop is the per-question record map paired with its
count of correct records. -/
theorem question_loop_eq (oracle : ProviderOracle) (client : Client)
    (lang : String) (qs : List Question) :
    question_loop oracle client lang qs =
      (qs.map (question_record oracle client lang),
       (qs.map (question_record oracle client lang)).countP (fun r => r.correct)) := by
  unfold question_loop
  rw [question_foldl_general]
  simp

/-- A successful `run_body` returns exactly the result record built from
the question loop. -/
theorem run_body_result (oracle : ProviderOracle) (client : Client) (exam : Exam)
    (m provider : String) (save : Option (ModelTestResult → Except String String))
    (lang : String) (r : ModelTestResult)
    (h : run_body oracle client exam m provider save lang = Except.ok r) :
    r = { model_name := m
          provider := provider
          exam_id := exam.exam_id
          total_questions := exam.questions.length
          correct_count := (question_loop oracle client lang exam.questions).2
          accuracy := pyRound 4 (if exam.questions.isEmpty then 0
            else ((question_loop oracle client lang exam.questions).2 : ℚ) /
              (exam.questions.length : ℚ))
          per_question_results := (question_loop oracle client lang exam.questions).1 } := by
  unfold run_body at h
  cases save with
  | none =>
    injection h with h2
    exact h2.symm
  | some s =>
    dsimp only at h
    split at h
    · injection h with h2
      exact h2.symm
    · exact Except.noConfusion h

end ModelAnswerTester

/-! ### Claims about `test_model_on_exam` -/

namespace ModelAnswerTester

/-- The conclusions of failure isolation, stated for the `try` body on
the already-overridden client. -/
theorem run_body_isolation (oracle : ProviderOracle) (c : Client) (exam : Exam)
    (m provider lang : String) :
    ∃ r : ModelTestResult,
      run_body oracle c exam m provider none lang = Except.ok r
      ∧ r.per_question_results.length = exam.questions.length
      ∧ (∀ i (h : i < exam.questions.length),
          ∃ rec : QRecord, r.per_question_results[i]? = some rec
            ∧ rec.question_id = exam.questions[i].id
            ∧ rec.question_type = exam.questions[i].type
            ∧ ∀ e, answer_one_question oracle c exam.questions[i] lang =
                Except.error e →
              rec.correct = false ∧ rec.error = some e)
      ∧ r.correct_count = r.per_question_results.countP (fun rec => rec.correct) := by
  refine ⟨_, rfl, ?_, ?_, ?_⟩
  · show ((question_loop oracle c lang exam.questions).1).length = _
    rw [question_loop_eq]
    simp
  · intro i h
    refine ⟨question_record oracle c lang exam.questions[i], ?_, ?_, ?_, ?_⟩
    · show ((question_loop oracle c lang exam.questions).1)[i]? = _
      rw [question_loop_eq]
      dsimp only
      rw [List.getElem?_map, List.getElem?_eq_getElem h]
      rfl
    · exact (question_record_fields oracle c lang _).1
    · exact (question_record_fields oracle c lang _).2
    · intro e he
      rw [question_record_of_error oracle c lang _ e he]
      exact ⟨rfl, rfl⟩
  · show (question_loop oracle c lang exam.questions).2 =
      ((question_loop oracle c lang exam.questions).1).countP _
    rw [question_loop_eq]

/-- Claim C6: for a supported provider, `test_model_on_exam` always
returns a result (per-question provider failures never abort the run);
the result carries exactly one entry per exam question in exam order;
a question whose step raises is recorded with `correct = false` and the
error message, and `correct_count` counts exactly the entries marked
correct, which excludes every failed question. -/
theorem test_model_failure_isolation (oracle : ProviderOracle) (oc yc : Client)
    (exam : Exam) (m lang provider : String)
    (hp : provider = "openai" ∨ provider = "yandex") :
    ∃ r : ModelTestResult,
      (test_model_on_exam oracle oc yc exam m provider none lang).1 = Except.ok r
      ∧ r.per_question_results.length = exam.questions.length
      ∧ (∀ i (h : i < exam.questions.length),
          ∃ rec : QRecord, r.per_question_results[i]? = some rec
            ∧ rec.question_id = exam.questions[i].id
            ∧ rec.question_type = exam.questions[i].type
            ∧ ∀ e, answer_one_question oracle
                  { (if provider = "openai" then oc else yc) with model := m }
                  exam.questions[i] lang = Except.error e →
              rec.correct = false ∧ rec.error = some e)
      ∧ r.correct_count = r.per_question_results.countP (fun rec => rec.correct) := by
  rcases hp with hp | hp
  · subst hp
    have hcl : (if ("openai" : String) = "openai" then oc else yc) = oc := if_pos rfl
    have ht : (test_model_on_exam oracle oc yc exam m "openai" none lang).1 =
        run_body oracle { oc with model := m } exam m "openai" none lang := by
      unfold test_model_on_exam
      rw [if_pos rfl]
    obtain ⟨r, hr, h1, h2, h3⟩ :=
      run_body_isolation oracle { oc with model := m } exam m "openai" lang
    refine ⟨r, ?_, h1, ?_, h3⟩
    · rw [ht]
      exact hr
    · rw [hcl]
      exact h2
  · subst hp
    have hne : ¬(("yandex" : String) = "openai") := by decide
    have hcl : (if ("yandex" : String) = "openai" then oc else yc) = yc := if_neg hne
    have ht : (test_model_on_exam oracle oc yc exam m "yandex" none lang).1 =
        run_body oracle { yc with model := m } exam m "yandex" none lang := by
      unfold test_model_on_exam
      rw [if_neg hne, if_pos rfl]
    obtain ⟨r, hr, h1, h2, h3⟩ :=
      run_body_isolation oracle { yc with model := m } exam m "yandex" lang
    refine ⟨r, ?_, h1, ?_, h3⟩
    · rw [ht]
      exact hr
    · rw [hcl]
      exact h2

/-- Accuracy facts about a successful `run_body`. -/
theorem accuracy_of_run_body (oracle : ProviderOracle) (c : Client) (exam : Exam)
    (m provider : String) (save : Option (ModelTestResult → Except String String))
    (lang : String) (r : ModelTestResult)
    (h : run_body oracle c exam m provider save lang = Except.ok r) :
    r.accuracy = pyRound 4 (if exam.questions.length = 0 then 0
      else (r.correct_count : ℚ) / (exam.questions.length : ℚ))
    ∧ (exam.questions = [] → r.accuracy = 0)
    ∧ (r.correct_count = 0 → r.accuracy = 0) := by
  have hr := run_body_result oracle c exam m provider save lang r h
  subst hr
  refine ⟨?_, ?_, ?_⟩
  · cases hq : exam.questions with
    | nil => simp
    | cons a t => simp
  · intro hq
    rw [hq]
    simp [pyRound_zero]
  · intro hc
    dsimp only at hc
    dsimp only
    rw [hc]
    simp [pyRound_zero]

/-- Claim C7, amended: the `accuracy` of a returned result is
`correct_count / total_questions` rounded (half-to-even) to 4 decimal
places, with `0` substituted for the quotient when the exam has no
questions; consequently `accuracy = 0` whenever `correct_count = 0` —
for an empty exam, but also for any non-empty exam with no correct
answer. -/
theorem test_model_accuracy_amended (oracle : ProviderOracle) (oc yc : Client)
    (exam : Exam) (m provider lang : String)
    (save : Option (ModelTestResult → Except String String)) (r : ModelTestResult)
    (h : (test_model_on_exam oracle oc yc exam m provider save lang).1 =
      Except.ok r) :
    r.accuracy = pyRound 4 (if exam.questions.length = 0 then 0
      else (r.correct_count : ℚ) / (exam.questions.length : ℚ))
    ∧ (exam.questions = [] → r.accuracy = 0)
    ∧ (r.correct_count = 0 → r.accuracy = 0) := by
  by_cases h1 : provider = "openai"
  · subst h1
    unfold test_model_on_exam at h
    rw [if_pos rfl] at h
    dsimp only at h
    exact accuracy_of_run_body oracle _ exam m "openai" save lang r h
  · by_cases h2 : provider = "yandex"
    · subst h2
      unfold test_model_on_exam at h
      rw [if_neg h1, if_pos rfl] at h
      dsimp only at h
      exact accuracy_of_run_body oracle _ exam m "yandex" save lang r h
    · unfold test_model_on_exam at h
      rw [if_neg h1, if_neg h2] at h
      exact Except.noConfusion h

/-- Claim C9: for both supported providers, the resolved client emerges
from `test_model_on_exam` with its original model (indeed its entire
original state) restored, whether the call returned a result or raised;
and the outcome of the call does not depend on the model the client held
on entry — only on the override. -/
theorem test_model_restores_client (oracle : ProviderOracle) (oc yc : Client)
    (exam : Exam) (m lang provider : String)
    (save : Option (ModelTestResult → Except String String)) :
    (provider = "openai" →
      (test_model_on_exam oracle oc yc exam m provider save lang).2 = some oc
      ∧ ∀ s, (test_model_on_exam oracle { oc with model := s } yc
            exam m provider save lang).1 =
          (test_model_on_exam oracle oc yc exam m provider save lang).1)
    ∧ (provider = "yandex" →
      (test_model_on_exam oracle oc yc exam m provider save lang).2 = some yc
      ∧ ∀ s, (test_model_on_exam oracle oc { yc with model := s }
            exam m provider save lang).1 =
          (test_model_on_exam oracle oc yc exam m provider save lang).1) := by
  constructor
  · intro hp
    subst hp
    constructor
    · unfold test_model_on_exam
      rw [if_pos rfl]
    · intro s
      unfold test_model_on_exam
      rw [if_pos rfl, if_pos rfl]
  · intro hp
    subst hp
    have hne : ¬(("yandex" : String) = "openai") := by decide
    constructor
    · unfold test_model_on_exam
      rw [if_neg hne, if_pos rfl]
    · intro s
      unfold test_model_on_exam
      rw [if_neg hne, if_pos rfl, if_neg hne, if_pos rfl]

end ModelAnswerTester

/-! ### Concrete evaluator runs -/

/-- `ratFloor` is the floor. -/
theorem ratFloor_eq_floor (q : ℚ) : ratFloor q = ⌊q⌋ := by
  unfold ratFloor
  exact Rat.floor_def.symm

/-- Rounding `1/3` to 4 decimal places gives `0.3333`. -/
theorem pyRound_four_third : pyRound 4 (1/3) = 3333/10000 := by
  unfold pyRound pyRoundInt
  rw [ratFloor_eq_floor]
  rw [show (1/3 : ℚ) * (10:ℚ)^4 = 10000/3 by norm_num]
  rw [show ⌊(10000/3 : ℚ)⌋ = 3333 by
    rw [Int.floor_eq_iff]
    norm_num]
  rw [if_pos (by norm_num)]
  norm_num

/-- The openai capability instance of the concrete runs. -/
def ocW : Client := { model := "gpt-base", api_key := "k1" }

/-- The yandex capability instance of the concrete runs. -/
def ycW : Client := { model := "yandex-base", api_key := "k2" }

/-- A provider whose every call raises. -/
def oracleFail : ProviderOracle :=
  { answer_question := fun _ _ _ _ _ => Except.error "provider down"
    grade_open_ended := fun _ _ _ _ _ _ => Except.error "provider down" }

/-- A provider that raises on questions with stem `S1` and otherwise
answers `[1]`. -/
def oracleW : ProviderOracle :=
  { answer_question := fun _ stem _ _ _ =>
      if stem = "S1" then Except.error "provider down"
      else Except.ok { choice := [1] }
    grade_open_ended := fun _ _ _ _ _ _ => Except.ok { score := 1 } }

/-- A one-question exam. -/
def examOne : Exam :=
  { exam_id := "e3"
    questions := [ { id := "qz", type := QType.single_choice, stem := "S",
                     options := ["a", "b"], correct := [0] } ] }

/-- A three-question exam on which `oracleW` fails twice and answers the
third question correctly. -/
def exam3 : Exam :=
  { exam_id := "e4"
    questions :=
      [ { id := "q1", type := QType.single_choice, stem := "S1",
          options := ["a", "b"], correct := [1] },
        { id := "q2", type := QType.single_choice, stem := "S1",
          options := ["a", "b"], correct := [1] },
        { id := "q3", type := QType.single_choice, stem := "S2",
          options := ["a", "b"], correct := [1] } ] }

/-- The result of testing `oracleFail` on `examOne`. -/
def failResult : ModelTestResult :=
  { model_name := "m"
    provider := "openai"
    exam_id := "e3"
    total_questions := 1
    correct_count := 0
    accuracy := 0
    per_question_results := [ { question_id := "qz",
                                question_type := QType.single_choice,
                                correct := false,
                                error := some "provider down" } ] }

/-- The result of testing `oracleW` on `exam3`. -/
def result3 : ModelTestResult :=
  { model_name := "m"
    provider := "openai"
    exam_id := "e4"
    total_questions := 3
    correct_count := 1
    accuracy := 3333/10000
    per_question_results :=
      [ { question_id := "q1", question_type := QType.single_choice,
          correct := false, error := some "provider down" },
        { question_id := "q2", question_type := QType.single_choice,
          correct := false, error := some "provider down" },
        { question_id := "q3", question_type := QType.single_choice,
          correct := true, model_answer_choice := some [1] } ] }

/-- Evaluating `oracleFail` on the non-empty `examOne` returns
`failResult`. -/
theorem fail_run_eq :
    (ModelAnswerTester.test_model_on_exam oracleFail ocW ycW examOne "m" "openai"
      none "en").1 = Except.ok failResult := by
  have hloop : ModelAnswerTester.question_loop oracleFail { ocW with model := "m" }
      "en" examOne.questions =
      ([ { question_id := "qz", question_type := QType.single_choice,
           correct := false, error := some "provider down" } ], 0) := rfl
  unfold ModelAnswerTester.test_model_on_exam
  rw [if_pos rfl]
  dsimp only
  unfold ModelAnswerTester.run_body
  rw [hloop]
  dsimp only
  congr 1
  unfold failResult
  simp only [ModelTestResult.mk.injEq, and_true, true_and]
  norm_num [pyRound_zero]
  exact ⟨rfl, rfl⟩

/-- Evaluating `oracleW` on `exam3` returns `result3` — in particular
its stored accuracy is the rounded `0.3333`, not `1/3`. -/
theorem run3_eq :
    (ModelAnswerTester.test_model_on_exam oracleW ocW ycW exam3 "m" "openai"
      none "en").1 = Except.ok result3 := by
  have hloop : ModelAnswerTester.question_loop oracleW { ocW with model := "m" }
      "en" exam3.questions =
      ([ { question_id := "q1", question_type := QType.single_choice,
           correct := false, error := some "provider down" },
         { question_id := "q2", question_type := QType.single_choice,
           correct := false, error := some "provider down" },
         { question_id := "q3", question_type := QType.single_choice,
           correct := true, model_answer_choice := some [1] } ], 1) := rfl
  unfold ModelAnswerTester.test_model_on_exam
  rw [if_pos rfl]
  dsimp only
  unfold ModelAnswerTester.run_body
  rw [hloop]
  dsimp only
  congr 1
  unfold result3
  simp only [ModelTestResult.mk.injEq, and_true, true_and]
  refine ⟨rfl, rfl, ?_⟩
  rw [show (exam3.questions.isEmpty : Bool) = false from rfl]
  simp only [Bool.false_eq_true, if_false]
  rw [show ((1:ℕ) : ℚ) / ((exam3.questions.length : ℕ) : ℚ) = 1/3 by norm_num [exam3]]
  exact pyRound_four_third

/-- Claim C7, counterexample: on the non-empty `examOne` with an
all-failing provider the returned accuracy is `0.0` although
`exam.questions` is not empty, refuting the claimed "accuracy == 0.0
exactly when `exam.questions` is empty"; and on `exam3` with one of
three questions correct the returned accuracy is `0.3333`, not the
exact quotient `1/3`, refuting the claimed exact equality. -/
theorem test_model_accuracy_counterexample :
    (ModelAnswerTester.test_model_on_exam oracleFail ocW ycW examOne "m" "openai"
      none "en").1 = Except.ok failResult
    ∧ failResult.accuracy = 0
    ∧ examOne.questions ≠ []
    ∧ (ModelAnswerTester.test_model_on_exam oracleW ocW ycW exam3 "m" "openai"
        none "en").1 = Except.ok result3
    ∧ result3.accuracy ≠ (result3.correct_count : ℚ) / (exam3.questions.length : ℚ) :=
  ⟨fail_run_eq, rfl, by decide, run3_eq, by norm_num [result3, exam3]⟩

/-- Witness for the amended C7 on the concrete failing run. -/
theorem test_model_accuracy_amended_witness :
    failResult.accuracy = pyRound 4 (if examOne.questions.length = 0 then 0
      else (failResult.correct_count : ℚ) / (examOne.questions.length : ℚ))
    ∧ (examOne.questions = [] → failResult.accuracy = 0)
    ∧ (failResult.correct_count = 0 → failResult.accuracy = 0) :=
  ModelAnswerTester.test_model_accuracy_amended oracleFail ocW ycW examOne "m"
    "openai" "en" none failResult fail_run_eq

/-- Witness for C6 on the concrete run of `oracleW` over `exam3`. -/
theorem test_model_failure_isolation_witness :
    ∃ r : ModelTestResult,
      (ModelAnswerTester.test_model_on_exam oracleW ocW ycW exam3 "m" "openai"
        none "en").1 = Except.ok r
      ∧ r.per_question_results.length = exam3.questions.length
      ∧ (∀ i (h : i < exam3.questions.length),
          ∃ rec : QRecord, r.per_question_results[i]? = some rec
            ∧ rec.question_id = exam3.questions[i].id
            ∧ rec.question_type = exam3.questions[i].type
            ∧ ∀ e, ModelAnswerTester.answer_one_question oracleW
                  { (if ("openai" : String) = "openai" then ocW else ycW) with
                    model := "m" }
                  exam3.questions[i] "en" = Except.error e →
              rec.correct = false ∧ rec.error = some e)
      ∧ r.correct_count = r.per_question_results.countP (fun rec => rec.correct) :=
  ModelAnswerTester.test_model_failure_isolation oracleW ocW ycW exam3 "m" "en"
    "openai" (Or.inl rfl)

/-- Witness for C9: restoration on a raising save path, on the yandex
path, and insensitivity of the outcome to the incoming model. -/
theorem test_model_restores_client_witness :
    (ModelAnswerTester.test_model_on_exam oracleFail ocW ycW examOne "m" "openai"
      (some (fun _ => Except.error "disk full")) "en").2 = some ocW
    ∧ (ModelAnswerTester.test_model_on_exam oracleFail ocW ycW examOne "m" "yandex"
        none "en").2 = some ycW
    ∧ (ModelAnswerTester.test_model_on_exam oracleFail { ocW with model := "other" }
        ycW examOne "m" "openai" none "en").1 =
      (ModelAnswerTester.test_model_on_exam oracleFail ocW ycW examOne "m" "openai"
        none "en").1 :=
  ⟨((ModelAnswerTester.test_model_restores_client oracleFail ocW ycW examOne "m"
      "en" "openai" (some (fun _ => Except.error "disk full"))).1 rfl).1,
   ((ModelAnswerTester.test_model_restores_client oracleFail ocW ycW examOne "m"
      "en" "yandex" none).2 rfl).1,
   ((ModelAnswerTester.test_model_restores_client oracleFail ocW ycW examOne "m"
      "en" "openai" none).1 rfl).2 "other"⟩

/-! ### Claims about `compare_models` -/

namespace ModelAnswerTester

/-- The best-model fold never moves off its accumulator when no accuracy
exceeds the running best. -/
theorem best_fold_stay (rs : List ModelTestResult) :
    ∀ (b : Option String) (v : ℚ), (∀ r ∈ rs, r.accuracy ≤ v) →
      best_fold rs (b, v) = (b, v) := by
  induction rs with
  | nil => intro b v _; rfl
  | cons r t ih =>
    intro b v h
    show List.foldl _ _ (r :: t) = (b, v)
    rw [List.foldl_cons]
    dsimp only
    rw [if_neg (not_lt.mpr (h r (by simp)))]
    exact ih b v (fun x hx => h x (by simp [hx]))

/-- When some accuracy exceeds the initial running best, the fold ends
on the first list entry attaining the overall maximum. -/
theorem best_fold_first (rs : List ModelTestResult) :
    ∀ (b : Option String) (v : ℚ), (∃ r ∈ rs, v < r.accuracy) →
      ∃ i, ∃ h : i < rs.length,
        best_fold rs (b, v) = (some rs[i].model_name, rs[i].accuracy)
        ∧ v < rs[i].accuracy
        ∧ (∀ r ∈ rs, r.accuracy ≤ rs[i].accuracy)
        ∧ (∀ j (hj : j < rs.length), j < i → rs[j].accuracy < rs[i].accuracy) := by
  induction rs with
  | nil =>
    intro b v h
    rcases h with ⟨r, hr, _⟩
    simp at hr
  | cons r t ih =>
    intro b v hex
    by_cases hvr : v < r.accuracy
    · by_cases hT : ∃ x ∈ t, r.accuracy < x.accuracy
      · obtain ⟨i, hi, heq, hlt, hmax, hfirst⟩ := ih (some r.model_name) r.accuracy hT
        refine ⟨i + 1, Nat.succ_lt_succ hi, ?_, ?_, ?_, ?_⟩
        · show List.foldl _ _ (r :: t) = _
          rw [List.foldl_cons]
          dsimp only
          rw [if_pos hvr]
          simpa using heq
        · simpa using lt_trans hvr hlt
        · intro x hx
          rcases List.mem_cons.mp hx with hx | hx
          · subst hx
            simpa using le_of_lt hlt
          · simpa using hmax x hx
        · intro j hj hji
          cases j with
          | zero => simpa using hlt
          | succ k =>
            have hk : k < t.length := by
              simpa using hj
            have := hfirst k hk (Nat.lt_of_succ_lt_succ hji)
            simpa using this
      · push_neg at hT
        refine ⟨0, by simp, ?_, by simpa using hvr, ?_, ?_⟩
        · show List.foldl _ _ (r :: t) = _
          rw [List.foldl_cons]
          dsimp only
          rw [if_pos hvr]
          have := best_fold_stay t (some r.model_name) r.accuracy hT
          simpa using this
        · intro x hx
          rcases List.mem_cons.mp hx with hx | hx
          · subst hx
            simp
          · simpa using hT x hx
        · intro j hj hji
          exact absurd hji (Nat.not_lt_zero j)
    · have hT : ∃ x ∈ t, v < x.accuracy := by
        rcases hex with ⟨x, hx, hvx⟩
        rcases List.mem_cons.mp hx with hx | hx
        · subst hx
          exact absurd hvx hvr
        · exact ⟨x, hx, hvx⟩
      obtain ⟨i, hi, heq, hlt, hmax, hfirst⟩ := ih b v hT
      refine ⟨i + 1, Nat.succ_lt_succ hi, ?_, ?_, ?_, ?_⟩
      · show List.foldl _ _ (r :: t) = _
        rw [List.foldl_cons]
        dsimp only
        rw [if_neg hvr]
        simpa using heq
      · simpa using hlt
      · intro x hx
        rcases List.mem_cons.mp hx with hx | hx
        · subst hx
          have : x.accuracy ≤ v := not_lt.mp hvr
          simpa using le_trans this (le_of_lt hlt)
        · simpa using hmax x hx
      · intro j hj hji
        cases j with
        | zero =>
          have : r.accuracy ≤ v := not_lt.mp hvr
          simpa using lt_of_le_of_lt this hlt
        | succ k =>
          have hk : k < t.length := by
            simpa using hj
          have := hfirst k hk (Nat.lt_of_succ_lt_succ hji)
          simpa using this

end ModelAnswerTester

/-- Claim C8, amended: for a non-empty result list, `best_model` is the
first-encountered model attaining the maximum accuracy provided that
maximum is strictly positive (ties broken by list order); when every
accuracy is at most `0.0` — in particular when all models score `0.0` —
`best_model` stays `None` and `best_accuracy` stays `0.0`. -/
theorem compare_models_best_amended (rs : List ModelTestResult) (hne : rs ≠ []) :
    ∃ rep : ModelAnswerTester.ComparisonReport,
      ModelAnswerTester.compare_models rs = Except.ok rep
      ∧ ((∀ r ∈ rs, r.accuracy ≤ 0) →
          rep.best_model = none ∧ rep.best_accuracy = 0)
      ∧ ((∃ r ∈ rs, 0 < r.accuracy) →
          ∃ i, ∃ h : i < rs.length,
            rep.best_model = some rs[i].model_name
            ∧ rep.best_accuracy = rs[i].accuracy
            ∧ (∀ r ∈ rs, r.accuracy ≤ rs[i].accuracy)
            ∧ (∀ j (hj : j < rs.length), j < i →
                rs[j].accuracy < rs[i].accuracy)) := by
  cases rs with
  | nil => exact absurd rfl hne
  | cons r0 t =>
    refine ⟨_, rfl, ?_, ?_⟩
    · intro hall
      constructor
      · show (ModelAnswerTester.best_fold (r0 :: t) (none, 0)).1 = none
        rw [ModelAnswerTester.best_fold_stay (r0 :: t) none 0 hall]
      · show (ModelAnswerTester.best_fold (r0 :: t) (none, 0)).2 = 0
        rw [ModelAnswerTester.best_fold_stay (r0 :: t) none 0 hall]
    · intro hex
      obtain ⟨i, hi, heq, hlt, hmax, hfirst⟩ :=
        ModelAnswerTester.best_fold_first (r0 :: t) none 0 hex
      refine ⟨i, hi, ?_, ?_, hmax, hfirst⟩
      · show (ModelAnswerTester.best_fold (r0 :: t) (none, 0)).1 = _
        rw [heq]
      · show (ModelAnswerTester.best_fold (r0 :: t) (none, 0)).2 = _
        rw [heq]

/-- A single result whose accuracy is `0.0`. -/
def zeroResult : ModelTestResult :=
  { model_name := "solo"
    provider := "openai"
    exam_id := "e0"
    total_questions := 2
    correct_count := 0
    accuracy := 0
    per_question_results := [] }

/-- The report `compare_models` produces for `[zeroResult]`. -/
def zeroReport : ModelAnswerTester.ComparisonReport :=
  { exam_id := "e0"
    total_questions := 2
    models := [ ({ model_name := "solo", provider := "openai", accuracy := 0,
                   correct_count := 0, ai_pass_rate := 0 } : ModelAnswerTester.ModelInfo) ]
    best_model := none
    best_accuracy := 0
    per_question_breakdown := [] }

/-- Claim C8, counterexample: comparing the single model `solo` whose
accuracy is `0.0` leaves `best_model = None`, not the claimed model with
the highest accuracy (`solo` itself) — the strict `>` against the
initial `0.0` never fires. -/
theorem compare_models_zero_counterexample :
    ModelAnswerTester.compare_models [zeroResult] = Except.ok zeroReport
    ∧ zeroReport.best_model = none
    ∧ none ≠ some zeroResult.model_name :=
  ⟨rfl, rfl, by simp⟩

/-- A model result with accuracy `0.5`, first in the tie. -/
def resA : ModelTestResult :=
  { model_name := "alpha"
    provider := "openai"
    exam_id := "e5"
    total_questions := 2
    correct_count := 1
    accuracy := 1/2
    per_question_results := [] }

/-- A model result with accuracy `0.5`, second in the tie. -/
def resB : ModelTestResult :=
  { model_name := "beta"
    provider := "yandex"
    exam_id := "e5"
    total_questions := 2
    correct_count := 1
    accuracy := 1/2
    per_question_results := [] }

/-- Witness for the amended C8 on a two-way tie at accuracy `0.5`. -/
theorem compare_models_best_amended_witness :
    ∃ rep : ModelAnswerTester.ComparisonReport,
      ModelAnswerTester.compare_models [resA, resB] = Except.ok rep
      ∧ ((∀ r ∈ [resA, resB], r.accuracy ≤ 0) →
          rep.best_model = none ∧ rep.best_accuracy = 0)
      ∧ ((∃ r ∈ [resA, resB], 0 < r.accuracy) →
          ∃ i, ∃ h : i < [resA, resB].length,
            rep.best_model = some [resA, resB][i].model_name
            ∧ rep.best_accuracy = [resA, resB][i].accuracy
            ∧ (∀ r ∈ [resA, resB], r.accuracy ≤ [resA, resB][i].accuracy)
            ∧ (∀ j (hj : j < [resA, resB].length), j < i →
                [resA, resB][j].accuracy < [resA, resB][i].accuracy)) :=
  compare_models_best_amended [resA, resB] (by simp)

/-- Claim C10: the comparison report copies `exam_id` and
`total_questions` from the first result, whatever the rest of the list
contains. -/
theorem compare_models_header_from_first (r0 : ModelTestResult)
    (t : List ModelTestResult) :
    ∃ rep : ModelAnswerTester.ComparisonReport,
      ModelAnswerTester.compare_models (r0 :: t) = Except.ok rep
      ∧ rep.exam_id = r0.exam_id
      ∧ rep.total_questions = r0.total_questions :=
  ⟨_, rfl, rfl, rfl⟩
